import Mathlib

/-!
# fouccat: the ffmpeg recording controller of `main.go`

A shallow embedding of the four operations of `src/main.go`
(`StartRecording`, `StopRecording`, `EndRecording`, `ScaleVideo`) and of the
package-level session slot (`cmd`, `stdinPipe`) they share.

Modelling conventions.

* The two package variables `cmd *exec.Cmd` and `stdinPipe io.WriteCloser` are
  the fields of `Slot`; a Go `nil` is `none`.
* Every operation is a function from the slot before the call to an `Outcome`:
  how the call ended, the slot after it, and the list of operations it performed
  on the outside world, in program order.
* What the operating system answers (does `os.Pipe` succeed, does the process
  spawn, is the kill delivered, does the write go through, what does `os.Stat`
  say) is not decided by the program.  Each such answer is an explicit argument
  of the operation that asks for it.
* A method call through a nil pointer or a nil interface is a Go run-time panic;
  it is the `Ret.panicked` outcome.
* `cmdMutex.Lock()` / `defer cmdMutex.Unlock()` bracket the whole body of the
  three session operations.  The embedding is sequential: one call runs to its
  end before the next one starts, which is what the mutex enforces, and the
  lock itself is not represented.
-/

namespace Fouccat

/-! ## Values of the Go standard library -/

/-- A non-nil Go `error`.  `notExist` is what `os.IsNotExist` reports for it. -/
structure Error where
  msg : String
  notExist : Bool
  deriving DecidableEq, Repr

/-- The predicate `os.IsNotExist(err)`: false for a nil error. -/
def os_IsNotExist : Option Error → Bool
  | none => false
  | some e => e.notExist

/-- The started operating-system process behind `cmd.Process` (`*os.Process`). -/
structure Process where
  pid : Nat
  deriving DecidableEq, Repr

/-- The write end of a pipe, as handed out by `cmd.StdinPipe()` (`io.WriteCloser`). -/
structure WriteCloser where
  fd : Nat
  deriving DecidableEq, Repr

/-- The two standard streams of the controller process itself. -/
inductive Stream where
  | osStdout
  | osStderr
  deriving DecidableEq, Repr

/-- The fields of `exec.Cmd` that `main.go` reads or writes.  `Args` holds the
command name followed by its arguments, as `exec.Command` builds it; `Stdin`
records that `StdinPipe` attached the read end of a pipe; `Process` is nil
until `Start` has spawned the process.  The field `Path`, the file that the
library's search of the path finds for the name, is never read or written by
`main.go` and is not represented. -/
structure Cmd where
  Args : List String
  Stdin : Bool
  Stdout : Option Stream
  Stderr : Option Stream
  Process : Option Process
  deriving DecidableEq, Repr

/-- The constructor `exec.Command(name, arg...)`: a fresh command, not started. -/
def exec_Command (name : String) (arg : List String) : Cmd :=
  { Args := name :: arg, Stdin := false, Stdout := none, Stderr := none, Process := none }

/-- The conversion `[]byte(s)`: the UTF-8 bytes of a string, as numbers below 256. -/
def bytes (s : String) : List Nat :=
  s.toList.flatMap fun c => (String.utf8EncodeChar c).map UInt8.toNat

/-- The function `strconv.Itoa`: the decimal text of an integer, with a leading
minus sign when it is negative. -/
def strconv_Itoa (i : Int) : String :=
  match i with
  | Int.ofNat n => Nat.repr n
  | Int.negSucc n => "-" ++ Nat.repr (n + 1)

/-! ## Operations on the outside world -/

/-- One operation performed on the outside world. -/
inductive Event where
  /-- The call `log.Printf`, with the formatted text. -/
  | log (text : String)
  /-- The call `os.Stat(path)`. -/
  | stat (path : String)
  /-- The call `cmd.StdinPipe()`. -/
  | pipe
  /-- The external tool is invoked (`cmd.Start()` or `cmd.Run()`), with the
  argument vector `cmd.Args`: the command name as given to `exec.Command`,
  followed by its arguments. -/
  | exec (argv : List String)
  /-- The call `cmd.Process.Kill()`. -/
  | kill (p : Process)
  /-- The call `w.Write(data)`. -/
  | write (w : WriteCloser) (data : List Nat)
  /-- The call `w.Close()`. -/
  | close (w : WriteCloser)
  deriving DecidableEq, Repr

/-- Whether an event is an invocation of the external tool. -/
def Event.isExec : Event → Bool
  | .exec _ => true
  | _ => false

/-! ## The session slot -/

/-- The package variables `cmd` and `stdinPipe` (`main.go`, lines 18-22). -/
structure Slot where
  cmd : Option Cmd
  stdinPipe : Option WriteCloser
  deriving DecidableEq, Repr

/-- The slot at program start: both package variables are nil. -/
def idle : Slot :=
  { cmd := none, stdinPipe := none }

/-- How a call ended: it returned an `error` value (nil is `none`), or it
dereferenced nil and panicked. -/
inductive Ret where
  | returned (err : Option Error)
  | panicked
  deriving DecidableEq, Repr

/-- The result of one session operation. -/
structure Outcome where
  ret : Ret
  slot : Slot
  effects : List Event
  deriving DecidableEq, Repr

/-! ## Constants (`main.go`, lines 24-34) -/

def videoSize : String := "1920x1080"

def frameRate : String := "60"

def probeSize : String := "50M"

def preset : String := "ultrafast"

def tune : String := "zerolatency"

def outputPath : String := "output.mp4"

def inputPath : String := "input.mp4"

def scaledWidth : Int := 1280

def scaledHeight : Int := 720

/-! ## The session operations -/

/-- The function `StartRecording` (`main.go`, lines 42-77).

`pipeRes` is what `cmd.StdinPipe()` returns and `startRes` is what spawning the
process inside `cmd.Start()` returns.  On failure `StdinPipe` returns a nil
pipe, and a failed `Start` leaves `cmd.Process` nil. -/
def StartRecording (outputPath : String) (pipeRes : Except Error WriteCloser)
    (startRes : Except Error Process) (s : Slot) : Outcome :=
  -- cmd = exec.Command("ffmpeg", ...)
  let c0 := exec_Command "ffmpeg"
    ["-f", "gdigrab", "-video_size", videoSize, "-framerate", frameRate,
     "-probesize", probeSize, "-i", "desktop", "-preset", preset, "-tune", tune,
     outputPath, "-y"]
  let s1 : Slot := { s with cmd := some c0 }
  -- stdinPipe, err = cmd.StdinPipe()
  match pipeRes with
  | .error err =>
    { ret := .returned (some err), slot := { s1 with stdinPipe := none }, effects := [.pipe] }
  | .ok w =>
    -- cmd.Stdout = os.Stdout; cmd.Stderr = os.Stderr
    let c1 : Cmd := { c0 with Stdin := true, Stdout := some .osStdout, Stderr := some .osStderr }
    let s2 : Slot := { cmd := some c1, stdinPipe := some w }
    -- err = cmd.Start()
    match startRes with
    | .error err =>
      { ret := .returned (some err), slot := s2, effects := [.pipe, .exec c1.Args] }
    | .ok p =>
      { ret := .returned none,
        slot := { s2 with cmd := some { c1 with Process := some p } },
        effects := [.pipe, .exec c1.Args] }

/-- The function `StopRecording` (`main.go`, lines 79-92).  `killRes` is what
`cmd.Process.Kill()` returns. -/
def StopRecording (killRes : Option Error) (s : Slot) : Outcome :=
  match s.cmd with
  | none => { ret := .returned none, slot := s, effects := [] }
  | some c =>
    -- err := cmd.Process.Kill()
    match c.Process with
    | none => { ret := .panicked, slot := s, effects := [] }
    | some p =>
      match killRes with
      | some err => { ret := .returned (some err), slot := s, effects := [.kill p] }
      | none => { ret := .returned none, slot := { s with cmd := none }, effects := [.kill p] }

/-- The function `EndRecording` (`main.go`, lines 94-109).  `writeRes` is the
error that `stdinPipe.Write` returns. -/
def EndRecording (writeRes : Option Error) (s : Slot) : Outcome :=
  match s.cmd with
  | none => { ret := .returned none, slot := s, effects := [] }
  | some _ =>
    -- _, err := stdinPipe.Write([]byte("q\n"))
    match s.stdinPipe with
    | none => { ret := .panicked, slot := s, effects := [] }
    | some w =>
      match writeRes with
      | some err =>
        { ret := .returned (some err), slot := s, effects := [.write w (bytes "q\n")] }
      | none =>
        -- stdinPipe.Close(); cmd = nil
        { ret := .returned none, slot := { s with cmd := none },
          effects := [.write w (bytes "q\n"), .close w] }

/-! ## The transcode operation -/

/-- The function `ScaleVideo` (`main.go`, lines 111-127).  `statErr` is the error
of `os.Stat(inputPath)` and `runRes` the error of `exec.Command(...).Run()`: nil
exactly when the tool was spawned and exited with status zero.  The function
does not touch the session slot; it gives back the returned error and the
operations performed. -/
def ScaleVideo (inputPath outputPath : String) (width height : Int)
    (statErr : Option Error) (runRes : Option Error) : Option Error × List Event :=
  if os_IsNotExist statErr then
    (statErr,
      [.stat inputPath, .log ("Input file does not exist: " ++ inputPath ++ "\n")])
  else
    let c := exec_Command "ffmpeg"
      ["-i", inputPath, "-vf",
       "scale=" ++ strconv_Itoa width ++ ":" ++ strconv_Itoa height, outputPath, "-y"]
    (runRes,
      [.stat inputPath,
       .log ("Scaling video from: " ++ inputPath ++ " to: " ++ outputPath ++
          " with resolution: " ++ strconv_Itoa width ++ "x" ++ strconv_Itoa height ++ "\n"),
       .exec c.Args])

/-! ## Sequences of calls -/

/-- One call of a session operation, with the answers of the outside world. -/
inductive Call where
  | start (outputPath : String) (pipeRes : Except Error WriteCloser)
      (startRes : Except Error Process)
  | stop (killRes : Option Error)
  | endRec (writeRes : Option Error)

/-- Run one call on a slot. -/
def step (c : Call) (s : Slot) : Outcome :=
  match c with
  | .start o pipeRes startRes => StartRecording o pipeRes startRes s
  | .stop killRes => StopRecording killRes s
  | .endRec writeRes => EndRecording writeRes s

/-- Run a sequence of calls one after the other.  A panic ends the program:
there is no slot after it. -/
def run : List Call → Slot → Option Slot
  | [], s => some s
  | c :: cs, s =>
    match (step c s).ret with
    | .returned _ => run cs (step c s).slot
    | .panicked => none

/-- A slot is reachable when some sequence of calls leads to it from `idle`. -/
def Reachable (s : Slot) : Prop :=
  ∃ cs : List Call, run cs idle = some s

/-- The property "both handles are present or both are absent". -/
def bothOrNeither (s : Slot) : Bool :=
  s.cmd.isSome == s.stdinPipe.isSome

/-- The property "a present `cmd` has a started process and the pipe is present":
what the two stop operations need in order not to dereference nil. -/
def stopSafe (s : Slot) : Bool :=
  match s.cmd with
  | none => true
  | some c => c.Process.isSome && s.stdinPipe.isSome

/-- A started command comes with a pipe: a `cmd` whose process was started is
accompanied by a present `stdinPipe`. -/
def startedHasPipe (s : Slot) : Prop :=
  ∀ c p, s.cmd = some c → c.Process = some p → s.stdinPipe ≠ none

/-- Whether a call is a stop, or a start whose pipe and process were both obtained. -/
def Call.startsCleanly : Call → Bool
  | .start _ (.ok _) (.ok _) => true
  | .start _ _ _ => false
  | _ => true

/-! ## Concrete values used in the examples -/

/-- The error of a tool that is not on the search path. -/
def errNotFound : Error :=
  { msg := "exec: ffmpeg: executable file not found in %PATH%", notExist := false }

/-- The error of a pipe that cannot be created. -/
def errPipe : Error :=
  { msg := "pipe: too many open files", notExist := false }

/-- The error of a kill that cannot be delivered. -/
def errKill : Error :=
  { msg := "os: process already finished", notExist := false }

/-- The error of a write to a pipe whose reader is gone. -/
def errWrite : Error :=
  { msg := "write |1: broken pipe", notExist := false }

/-- The error of `os.Stat` on a path that runs through a regular file, such as
`input.mp4/x.mp4`: the path names no file, and `os.IsNotExist` is false of it. -/
def errNotDir : Error :=
  { msg := "stat input.mp4/x.mp4: not a directory", notExist := false }

/-- The error of `os.Stat` on a path that does not exist. -/
def errNoFile : Error :=
  { msg := "stat missing.mp4: no such file or directory", notExist := true }

/-- A successful start from the idle slot, with pipe 7 and process 4242. -/
def startOk : Call :=
  .start outputPath (.ok ⟨7⟩) (.ok ⟨4242⟩)

/-- A start whose pipe is created but whose process cannot be spawned. -/
def startNoTool : Call :=
  .start outputPath (.ok ⟨7⟩) (.error errNotFound)

/-- A start whose pipe cannot be created. -/
def startNoPipe : Call :=
  .start outputPath (.error errPipe) (.ok ⟨4242⟩)

/-- The slot after a successful start: a running session. -/
def liveSlot : Slot :=
  (step startOk idle).slot

/-- The command held by `liveSlot`. -/
def liveCmd : Cmd :=
  { Args := ["ffmpeg", "-f", "gdigrab", "-video_size", "1920x1080", "-framerate", "60",
      "-probesize", "50M", "-i", "desktop", "-preset", "ultrafast", "-tune",
      "zerolatency", "output.mp4", "-y"],
    Stdin := true, Stdout := some .osStdout, Stderr := some .osStderr,
    Process := some ⟨4242⟩ }

/-- The slot after a successful start followed by a successful hard stop. -/
def stoppedSlot : Slot :=
  { cmd := none, stdinPipe := some ⟨7⟩ }

/-! ## Basic facts -/

/-- The payload `[]byte("q\n")` is the two bytes 0x71, 0x0A. -/
theorem bytes_q_newline : bytes "q\n" = [0x71, 0x0A] := by
  decide

/-- The slot after a successful start holds a started command and its pipe. -/
theorem liveSlot_eq : liveSlot = { cmd := some liveCmd, stdinPipe := some ⟨7⟩ } := by
  decide

/-- The hard stop without a command does nothing. -/
theorem StopRecording_idle (killRes : Option Error) (s : Slot) (h : s.cmd = none) :
    StopRecording killRes s = { ret := .returned none, slot := s, effects := [] } := by
  simp [StopRecording, h]

/-- The hard stop on a started command: the kill is attempted, and `cmd` is
cleared when it succeeds. -/
theorem StopRecording_live (killRes : Option Error) (s : Slot) (c : Cmd) (p : Process)
    (hc : s.cmd = some c) (hp : c.Process = some p) :
    StopRecording killRes s =
      match killRes with
      | some err => { ret := .returned (some err), slot := s, effects := [.kill p] }
      | none => { ret := .returned none, slot := { s with cmd := none }, effects := [.kill p] } := by
  simp [StopRecording, hc, hp]

/-- The hard stop on a command that was never started dereferences nil. -/
theorem StopRecording_unstarted (killRes : Option Error) (s : Slot) (c : Cmd)
    (hc : s.cmd = some c) (hp : c.Process = none) :
    StopRecording killRes s = { ret := .panicked, slot := s, effects := [] } := by
  simp [StopRecording, hc, hp]

/-- The graceful stop without a command does nothing. -/
theorem EndRecording_idle (writeRes : Option Error) (s : Slot) (h : s.cmd = none) :
    EndRecording writeRes s = { ret := .returned none, slot := s, effects := [] } := by
  simp [EndRecording, h]

/-- The graceful stop with a command and a pipe: the write is attempted, and on
success the pipe is closed and `cmd` cleared. -/
theorem EndRecording_live (writeRes : Option Error) (s : Slot) (c : Cmd) (w : WriteCloser)
    (hc : s.cmd = some c) (hw : s.stdinPipe = some w) :
    EndRecording writeRes s =
      match writeRes with
      | some err =>
        { ret := .returned (some err), slot := s, effects := [.write w [0x71, 0x0A]] }
      | none =>
        { ret := .returned none, slot := { s with cmd := none },
          effects := [.write w [0x71, 0x0A], .close w] } := by
  simp [EndRecording, hc, hw, bytes_q_newline]

/-- The graceful stop with a command and no pipe dereferences nil. -/
theorem EndRecording_noPipe (writeRes : Option Error) (s : Slot) (c : Cmd)
    (hc : s.cmd = some c) (hw : s.stdinPipe = none) :
    EndRecording writeRes s = { ret := .panicked, slot := s, effects := [] } := by
  simp [EndRecording, hc, hw]

/-! ## C1: stopping without a session -/

/-- C1. When no session is active (`cmd` is nil), `StopRecording` and
`EndRecording` each return nil, perform no operation at all (in particular no
kill, no write and no close) and leave `cmd` and `stdinPipe` as they were,
whatever the outside world would have answered. -/
theorem C1_stop_without_session_is_noop (s : Slot) (h : s.cmd = none)
    (killRes writeRes : Option Error) :
    StopRecording killRes s = { ret := .returned none, slot := s, effects := [] } ∧
      EndRecording writeRes s = { ret := .returned none, slot := s, effects := [] } :=
  ⟨StopRecording_idle killRes s h, EndRecording_idle writeRes s h⟩

/-- C1 at the slot left by a start and a hard stop, with failing answers at hand. -/
theorem C1_stop_without_session_is_noop_witness :
    stoppedSlot.cmd = none ∧
      StopRecording (some errKill) stoppedSlot =
        { ret := .returned none, slot := stoppedSlot, effects := [] } ∧
      EndRecording (some errWrite) stoppedSlot =
        { ret := .returned none, slot := stoppedSlot, effects := [] } :=
  ⟨rfl, C1_stop_without_session_is_noop stoppedSlot rfl (some errKill) (some errWrite)⟩

/-! ## C2: the graceful signal -/

/-- C2. On an active session whose write succeeds, `EndRecording` returns nil
and performs exactly two operations, in this order: one write of the two bytes
0x71, 0x0A (`q`, newline) to the stdin handle, then one close of that handle. -/
theorem C2_end_writes_q_newline_then_closes (s : Slot) (c : Cmd) (w : WriteCloser)
    (hc : s.cmd = some c) (hw : s.stdinPipe = some w) :
    (EndRecording none s).ret = .returned none ∧
      (EndRecording none s).effects = [.write w [0x71, 0x0A], .close w] := by
  rw [EndRecording_live none s c w hc hw]
  exact ⟨rfl, rfl⟩

/-- C2 on the running session. -/
theorem C2_end_writes_q_newline_then_closes_witness :
    (EndRecording none liveSlot).ret = .returned none ∧
      (EndRecording none liveSlot).effects = [.write ⟨7⟩ [0x71, 0x0A], .close ⟨7⟩] :=
  C2_end_writes_q_newline_then_closes liveSlot liveCmd ⟨7⟩ (by decide) (by decide)

/-! ## C3: what a successful stop clears -/

/-- C3, as stated, fails: on the running session `liveSlot` both stop operations
return nil, and afterwards `stdinPipe` is still present, so the slot is not
"neither handle". -/
theorem C3_stop_keeps_stdinPipe :
    liveSlot.cmd ≠ none ∧
      (StopRecording none liveSlot).ret = .returned none ∧
      ¬ ((StopRecording none liveSlot).slot.cmd = none ∧
          (StopRecording none liveSlot).slot.stdinPipe = none) ∧
      (EndRecording none liveSlot).ret = .returned none ∧
      ¬ ((EndRecording none liveSlot).slot.cmd = none ∧
          (EndRecording none liveSlot).slot.stdinPipe = none) := by
  decide

/-- C3, amended. On an active session, after `StopRecording` or `EndRecording`
returns nil, `cmd` is nil and `stdinPipe` is the handle it was before the call:
the stop operations clear `cmd` only. -/
theorem C3_successful_stop_clears_cmd_only (s : Slot) (h : s.cmd ≠ none)
    (killRes writeRes : Option Error) :
    ((StopRecording killRes s).ret = .returned none →
        (StopRecording killRes s).slot.cmd = none ∧
          (StopRecording killRes s).slot.stdinPipe = s.stdinPipe) ∧
      ((EndRecording writeRes s).ret = .returned none →
        (EndRecording writeRes s).slot.cmd = none ∧
          (EndRecording writeRes s).slot.stdinPipe = s.stdinPipe) := by
  obtain ⟨c, hc⟩ := Option.ne_none_iff_exists'.mp h
  constructor
  · cases hp : c.Process with
    | none => simp [StopRecording_unstarted killRes s c hc hp]
    | some p =>
      rw [StopRecording_live killRes s c p hc hp]
      cases killRes <;> simp
  · cases hw : s.stdinPipe with
    | none => simp [EndRecording_noPipe writeRes s c hc hw]
    | some w =>
      rw [EndRecording_live writeRes s c w hc hw]
      cases writeRes <;> simp [hw]

/-- The amended C3 on the running session. -/
theorem C3_successful_stop_clears_cmd_only_witness :
    liveSlot.cmd ≠ none ∧
      ((StopRecording none liveSlot).slot.cmd = none ∧
        (StopRecording none liveSlot).slot.stdinPipe = liveSlot.stdinPipe) ∧
      ((EndRecording none liveSlot).slot.cmd = none ∧
        (EndRecording none liveSlot).slot.stdinPipe = liveSlot.stdinPipe) :=
  ⟨by decide,
    (C3_successful_stop_clears_cmd_only liveSlot (by decide) none none).1 (by decide),
    (C3_successful_stop_clears_cmd_only liveSlot (by decide) none none).2 (by decide)⟩

/-! ## C6: a failed stop -/

/-- C6. On an active session, when the kill of `StopRecording` fails with `e`
the call returns `e`, and when the write of `EndRecording` fails with `e` the call
returns `e`; in both cases `cmd` and `stdinPipe` are what they were before the
call and the only operation performed is the failed kill, respectively the
failed write: the stdin handle is not closed. -/
theorem C6_failed_stop_leaves_slot (s : Slot) (c : Cmd) (hc : s.cmd = some c) (e : Error) :
    (∀ p, c.Process = some p →
        StopRecording (some e) s =
          { ret := .returned (some e), slot := s, effects := [.kill p] }) ∧
      (∀ w, s.stdinPipe = some w →
        EndRecording (some e) s =
          { ret := .returned (some e), slot := s, effects := [.write w [0x71, 0x0A]] }) :=
  ⟨fun p hp => StopRecording_live (some e) s c p hc hp,
    fun w hw => EndRecording_live (some e) s c w hc hw⟩

/-- C6 on the running session. -/
theorem C6_failed_stop_leaves_slot_witness :
    StopRecording (some errKill) liveSlot =
        { ret := .returned (some errKill), slot := liveSlot, effects := [.kill ⟨4242⟩] } ∧
      EndRecording (some errWrite) liveSlot =
        { ret := .returned (some errWrite), slot := liveSlot,
          effects := [.write ⟨7⟩ [0x71, 0x0A]] } :=
  ⟨(C6_failed_stop_leaves_slot liveSlot liveCmd (by decide) errKill).1 ⟨4242⟩ (by decide),
    (C6_failed_stop_leaves_slot liveSlot liveCmd (by decide) errWrite).2 ⟨7⟩ (by decide)⟩

/-! ## C4: the two handles along a run -/

/-- The idle slot holds no command. -/
theorem startedHasPipe_idle : startedHasPipe idle := by
  intro c p hc
  simp [idle] at hc

/-- Every call keeps the invariant, however it ends. -/
theorem startedHasPipe_step (call : Call) (s : Slot) (h : startedHasPipe s) :
    startedHasPipe (step call s).slot := by
  cases call with
  | start o pipeRes startRes =>
    intro c p hc hp
    cases pipeRes with
    | error e =>
      simp only [step, StartRecording, exec_Command, Option.some.injEq] at hc
      subst hc
      simp at hp
    | ok w =>
      cases startRes <;> simp [step, StartRecording]
  | stop killRes =>
    cases hc : s.cmd with
    | none => simpa [step, StopRecording_idle killRes s hc] using h
    | some c =>
      cases hp : c.Process with
      | none => simpa [step, StopRecording_unstarted killRes s c hc hp] using h
      | some p =>
        cases killRes with
        | some e => simpa [step, StopRecording_live (some e) s c p hc hp] using h
        | none =>
          intro c1 p1 hc1
          simp [step, StopRecording_live none s c p hc hp] at hc1
  | endRec writeRes =>
    cases hc : s.cmd with
    | none => simpa [step, EndRecording_idle writeRes s hc] using h
    | some c =>
      cases hw : s.stdinPipe with
      | none => simpa [step, EndRecording_noPipe writeRes s c hc hw] using h
      | some w =>
        cases writeRes with
        | some e => simpa [step, EndRecording_live (some e) s c w hc hw] using h
        | none =>
          intro c1 p1 hc1
          simp [step, EndRecording_live none s c w hc hw] at hc1

/-- A run keeps the invariant. -/
theorem startedHasPipe_run (cs : List Call) :
    ∀ s s1 : Slot, startedHasPipe s → run cs s = some s1 → startedHasPipe s1 := by
  induction cs with
  | nil =>
    intro s s1 h hr
    simp only [run, Option.some.injEq] at hr
    exact hr ▸ h
  | cons call cs ih =>
    intro s s1 h hr
    simp only [run] at hr
    cases hret : (step call s).ret with
    | returned e =>
      rw [hret] at hr
      exact ih _ _ (startedHasPipe_step call s h) hr
    | panicked =>
      rw [hret] at hr
      simp at hr

/-- C4, as stated, fails: a successful start followed by a successful hard stop
reaches a slot where `cmd` is nil and `stdinPipe` is still present. -/
theorem C4_stop_splits_the_handles :
    Reachable stoppedSlot ∧ stoppedSlot.cmd = none ∧ stoppedSlot.stdinPipe ≠ none ∧
      bothOrNeither stoppedSlot = false :=
  ⟨⟨[startOk, .stop none], by decide⟩, by decide, by decide, by decide⟩

/-- C4, amended. In every slot reachable from the idle slot by any sequence of
`StartRecording`, `StopRecording` and `EndRecording` calls, with any outcome of
pipe creation, spawn, kill and write, a `cmd` that holds a started process comes
with a present `stdinPipe`. -/
theorem C4_started_cmd_has_stdinPipe (s : Slot) (h : Reachable s) (c : Cmd) (p : Process)
    (hc : s.cmd = some c) (hp : c.Process = some p) : s.stdinPipe ≠ none := by
  obtain ⟨cs, hr⟩ := h
  exact startedHasPipe_run cs idle s startedHasPipe_idle hr c p hc hp

/-- The amended C4 after a run with a failed start and a failed write in it. -/
theorem C4_started_cmd_has_stdinPipe_witness :
    Reachable liveSlot ∧ liveSlot.stdinPipe ≠ none :=
  ⟨⟨[.stop none, startNoTool, .endRec (some errWrite), startOk], by decide⟩,
    C4_started_cmd_has_stdinPipe liveSlot
      ⟨[.stop none, startNoTool, .endRec (some errWrite), startOk], by decide⟩ liveCmd ⟨4242⟩
      (by decide) (by decide)⟩

/-! ## C5: a failed start -/

/-- A start whose pipe and process are both obtained returns nil and leaves a
started command together with its pipe, whatever the slot held before. -/
theorem StartRecording_ok (o : String) (w : WriteCloser) (p : Process) (s : Slot) :
    (StartRecording o (.ok w) (.ok p) s).ret = .returned none ∧
      (∃ c, (StartRecording o (.ok w) (.ok p) s).slot.cmd = some c ∧ c.Process = some p) ∧
      (StartRecording o (.ok w) (.ok p) s).slot.stdinPipe = some w := by
  simp [StartRecording]

/-- C5 on the code. `StartRecording` from the idle slot with the tool missing
returns the spawn error and leaves `cmd` present (process not started) and
`stdinPipe` present; with the pipe failing it returns the pipe error and leaves
`cmd` present and `stdinPipe` nil. In both cases the slot is not empty. -/
theorem C5_failed_start_leaves_cmd :
    (step startNoTool idle).ret = .returned (some errNotFound) ∧
      (step startNoTool idle).slot.cmd ≠ none ∧
      (step startNoTool idle).slot.stdinPipe = some ⟨7⟩ ∧
      (step startNoPipe idle).ret = .returned (some errPipe) ∧
      (step startNoPipe idle).slot.cmd ≠ none ∧
      (step startNoPipe idle).slot.stdinPipe = none := by
  decide

/-! ## C10: nil dereference in the stop operations -/

/-- C10 on the code. After a `StartRecording` that failed to spawn the tool the
slot is reachable, `cmd` is present and `cmd.Process` is nil, and the next
`StopRecording` panics; after a `StartRecording` whose pipe failed `stdinPipe` is
nil as well and the next `EndRecording` panics. -/
theorem C10_stop_after_failed_start_panics :
    Reachable (step startNoTool idle).slot ∧
      stopSafe (step startNoTool idle).slot = false ∧
      (StopRecording none (step startNoTool idle).slot).ret = .panicked ∧
      Reachable (step startNoPipe idle).slot ∧
      stopSafe (step startNoPipe idle).slot = false ∧
      (EndRecording none (step startNoPipe idle).slot).ret = .panicked :=
  ⟨⟨[startNoTool], by decide⟩, by decide, by decide,
    ⟨[startNoPipe], by decide⟩, by decide, by decide⟩

/-- One call that starts cleanly, made on a slot that is safe to stop, returns
and leaves a slot that is safe to stop. -/
theorem stopSafe_step (call : Call) (hg : call.startsCleanly = true) (s : Slot)
    (h : stopSafe s = true) :
    (∃ e, (step call s).ret = .returned e) ∧ stopSafe (step call s).slot = true := by
  cases call with
  | start o pipeRes startRes =>
    cases pipeRes with
    | error e => simp [Call.startsCleanly] at hg
    | ok w =>
      cases startRes with
      | error e => simp [Call.startsCleanly] at hg
      | ok p => simp [step, StartRecording, stopSafe]
  | stop killRes =>
    cases hc : s.cmd with
    | none => simp [step, StopRecording_idle killRes s hc, h]
    | some c =>
      simp only [stopSafe, hc, Bool.and_eq_true, Option.isSome_iff_exists] at h
      obtain ⟨⟨p, hp⟩, ⟨w, hw⟩⟩ := h
      cases killRes with
      | some e => simp [step, StopRecording_live (some e) s c p hc hp, stopSafe, hc, hp, hw]
      | none => simp [step, StopRecording_live none s c p hc hp, stopSafe]
  | endRec writeRes =>
    cases hc : s.cmd with
    | none => simp [step, EndRecording_idle writeRes s hc, h]
    | some c =>
      simp only [stopSafe, hc, Bool.and_eq_true, Option.isSome_iff_exists] at h
      obtain ⟨⟨p, hp⟩, ⟨w, hw⟩⟩ := h
      cases writeRes with
      | some e => simp [step, EndRecording_live (some e) s c w hc hw, stopSafe, hc, hp, hw]
      | none => simp [step, EndRecording_live none s c w hc hw, stopSafe]

/-- As long as every start obtains its pipe and its process, a run never panics
and every slot it reaches is safe to stop: the nil dereference needs a failed
start. -/
theorem stopSafe_run (cs : List Call) (hg : ∀ call ∈ cs, call.startsCleanly = true) :
    ∀ s : Slot, stopSafe s = true → ∃ s1, run cs s = some s1 ∧ stopSafe s1 = true := by
  induction cs with
  | nil =>
    intro s h
    exact ⟨s, rfl, h⟩
  | cons call cs ih =>
    intro s h
    obtain ⟨⟨e, he⟩, hs⟩ := stopSafe_step call (hg call (List.mem_cons_self _ _)) s h
    obtain ⟨s1, hr, h1⟩ := ih (fun c hc => hg c (List.mem_cons_of_mem _ hc)) _ hs
    exact ⟨s1, by simp [run, he, hr], h1⟩

/-! ## C7 and C8: rescaling -/

/-- The model of `strconv.Itoa` is the usual decimal text of an integer. -/
theorem strconv_Itoa_eq_toString (i : Int) : strconv_Itoa i = toString i := by
  cases i <;> rfl


/-- C7. When `os.Stat` reports that the input path does not exist, `ScaleVideo`
returns that (non-nil, not-exist) error, and the only operations it performs
are the stat and one log line: the external tool is not invoked. -/
theorem C7_scale_missing_input (inputPath outputPath : String) (width height : Int)
    (statErr runRes : Option Error) (h : os_IsNotExist statErr = true) :
    (∃ e, (ScaleVideo inputPath outputPath width height statErr runRes).1 = some e ∧
        e.notExist = true) ∧
      (ScaleVideo inputPath outputPath width height statErr runRes).2 =
        [.stat inputPath, .log ("Input file does not exist: " ++ inputPath ++ "\n")] ∧
      (ScaleVideo inputPath outputPath width height statErr runRes).2.filter Event.isExec
        = [] := by
  cases statErr with
  | none => simp [os_IsNotExist] at h
  | some e =>
    have he : e.notExist = true := h
    simp [ScaleVideo, os_IsNotExist, he, Event.isExec]

/-- C7 on the missing file of scenario C. -/
theorem C7_scale_missing_input_witness :
    (∃ e, (ScaleVideo "missing.mp4" "out.mp4" 1280 720 (some errNoFile) none).1 = some e ∧
        e.notExist = true) ∧
      (ScaleVideo "missing.mp4" "out.mp4" 1280 720 (some errNoFile) none).2 =
        [.stat "missing.mp4", .log ("Input file does not exist: " ++ "missing.mp4" ++ "\n")] ∧
      (ScaleVideo "missing.mp4" "out.mp4" 1280 720 (some errNoFile) none).2.filter Event.isExec
        = [] :=
  C7_scale_missing_input "missing.mp4" "out.mp4" 1280 720 (some errNoFile) none rfl

/-- C8. Whenever `os.Stat` does not report "not exist" (the input path exists:
the stat error is nil, or it is another error such as permission denied),
`ScaleVideo` invokes the tool `ffmpeg` exactly once, with the arguments `-i`, the
input path, `-vf`, `scale=` followed by the decimal width, a colon and the
decimal height, the output path, `-y`; the operations it performs are the stat,
one log line and that invocation; it returns the error of the invocation, so
nil exactly when the invocation succeeds; and for width 1280 and height 720 the
filter argument is `scale=1280:720`. -/
theorem C8_scale_invokes_tool_once (inputPath outputPath : String) (width height : Int)
    (statErr runRes : Option Error) (h : os_IsNotExist statErr = false) :
    (ScaleVideo inputPath outputPath width height statErr runRes).2.filter Event.isExec =
        [.exec
          ["ffmpeg", "-i", inputPath, "-vf",
            "scale=" ++ strconv_Itoa width ++ ":" ++ strconv_Itoa height, outputPath, "-y"]] ∧
      (ScaleVideo inputPath outputPath width height statErr runRes).2 =
        [.stat inputPath,
         .log ("Scaling video from: " ++ inputPath ++ " to: " ++ outputPath ++
            " with resolution: " ++ strconv_Itoa width ++ "x" ++ strconv_Itoa height ++ "\n"),
         .exec
          ["ffmpeg", "-i", inputPath, "-vf",
            "scale=" ++ strconv_Itoa width ++ ":" ++ strconv_Itoa height, outputPath, "-y"]] ∧
      (ScaleVideo inputPath outputPath width height statErr runRes).1 = runRes ∧
      ((ScaleVideo inputPath outputPath width height statErr runRes).1 = none ↔ runRes = none) ∧
      (ScaleVideo inputPath outputPath 1280 720 statErr runRes).2.filter Event.isExec =
        [.exec ["ffmpeg", "-i", inputPath, "-vf", "scale=1280:720", outputPath, "-y"]] := by
  have h1 : "scale=" ++ strconv_Itoa 1280 ++ ":" ++ strconv_Itoa 720 = "scale=1280:720" := by
    decide
  refine ⟨?_, ?_, ?_, ?_, ?_⟩
  · simp [ScaleVideo, h, exec_Command, Event.isExec]
  · simp [ScaleVideo, h, exec_Command]
  · simp [ScaleVideo, h]
  · simp [ScaleVideo, h]
  · simp [ScaleVideo, h, exec_Command, Event.isExec, h1]

/-- C8 on scenario D (the input exists, the tool exits with status zero), and on
a path whose stat fails with an error other than "not exist": the tool is run
there as well, and its error is what `ScaleVideo` returns. -/
theorem C8_scale_invokes_tool_once_witness :
    os_IsNotExist none = false ∧
      (ScaleVideo "input.mp4" "scaled_output.mp4" 1280 720 none none).1 = none ∧
      (ScaleVideo "input.mp4" "scaled_output.mp4" 1280 720 none none).2.filter Event.isExec =
        [.exec ["ffmpeg", "-i", "input.mp4", "-vf", "scale=1280:720", "scaled_output.mp4",
          "-y"]] ∧
      os_IsNotExist (some errNotDir) = false ∧
      (ScaleVideo "input.mp4/x.mp4" "out.mp4" 1280 720 (some errNotDir) (some errNotFound)).1 =
        some errNotFound ∧
      (ScaleVideo "input.mp4/x.mp4" "out.mp4" 1280 720 (some errNotDir)
          (some errNotFound)).2.filter Event.isExec =
        [.exec ["ffmpeg", "-i", "input.mp4/x.mp4", "-vf", "scale=1280:720", "out.mp4", "-y"]] :=
  ⟨rfl,
    (C8_scale_invokes_tool_once "input.mp4" "scaled_output.mp4" 1280 720 none none rfl).2.2.1,
    (C8_scale_invokes_tool_once "input.mp4" "scaled_output.mp4" 1280 720 none none
      rfl).2.2.2.2,
    rfl,
    (C8_scale_invokes_tool_once "input.mp4/x.mp4" "out.mp4" 1280 720 (some errNotDir)
      (some errNotFound) rfl).2.2.1,
    (C8_scale_invokes_tool_once "input.mp4/x.mp4" "out.mp4" 1280 720 (some errNotDir)
      (some errNotFound) rfl).2.2.2.2⟩

end Fouccat
